import Mathlib

/-
  Verification of the Town core of paddlers-browser-game.

  Shallow embedding of:
    - src/paddlers-shared-lib/src/game_mechanics/town.rs
      (grid constants, TownMap, TownTileType, distance2)
    - src/paddlers-frontend/src/game/town.rs
      (the Town facade: place_building, remove_building, building_type,
       add/remove_entity_to_building, add/remove_stateful_task,
       forest_size / forest_usage / forest_size_free,
       tiles_in_rectified_circle, lane_in_range)

  Modelling conventions:
    - usize values are Nat; `saturating_sub` is Nat subtraction; the plain
      usize subtraction in forest_size_free is modelled as a checked
      subtraction returning Option (none models the debug-build panic /
      release-build wrap on underflow).
    - f32 radii and squared distances are modelled as exact rationals; all
      values appearing in the code (small integer coordinates, small radii)
      are exactly representable in f32, where these operations are exact.
    - Rust panics (debug_assert! failures, Option::unwrap on None) are
      modelled by an Option result, none meaning the panic.
    - specs::Entity is an opaque external handle; modelled as Nat.
-/

namespace Paddlers

/-- Grid width, from paddlers-shared-lib town.rs: TOWN_X = 23. -/
def TOWN_X : Nat := 23

/-- Grid height, from paddlers-shared-lib town.rs: TOWN_Y = 13. -/
def TOWN_Y : Nat := 13

/-- The fixed lane row, from paddlers-shared-lib town.rs: TOWN_LANE_Y = 6. -/
def TOWN_LANE_Y : Nat := 6

/-- Frontend town.rs: pub const X: usize = TOWN_X. -/
abbrev X : Nat := TOWN_X

/-- Frontend town.rs: const Y: usize = TOWN_Y. -/
abbrev Y : Nat := TOWN_Y

/-- TileIndex = (usize, usize), from paddlers-shared-lib town.rs. -/
abbrev TileIndex := Nat × Nat

/-- Opaque back-reference to an external specs::Entity; the core never
constructs or inspects it, so it is modelled as a plain Nat key. -/
abbrev Entity := Nat

/-- Modelled from the spec: BuildingType (not under src/) is a building kind
whose only relevant datum is its fixed `capacity()`; modelled as a structure
carrying an arbitrary capacity value. -/
structure BuildingType where
  capacity : Nat
deriving DecidableEq

/-- TownTileType from paddlers-shared-lib town.rs, with the BuildingType
payload used by the frontend (town.rs constructs TileType::BUILDING(bt) and
building_type extracts the kind from it). -/
inductive TownTileType where
  | EMPTY : TownTileType
  | BUILDING : BuildingType → TownTileType
  | LANE : TownTileType
deriving DecidableEq

namespace TownTileType

/-- TownTileType::is_buildable from paddlers-shared-lib town.rs. -/
def is_buildable : TownTileType → Bool
  | .EMPTY => true
  | .BUILDING _ => false
  | .LANE => false

/-- TownTileType::is_walkable from paddlers-shared-lib town.rs. -/
def is_walkable : TownTileType → Bool
  | .EMPTY => true
  | .LANE => true
  | .BUILDING _ => false

end TownTileType

/-- TownMap from paddlers-shared-lib town.rs: a TOWN_X x TOWN_Y array of
tile types. The array is modelled as a total function; all access goes
through the bounds-checked tile_type, matching the array getters. -/
structure TownMap where
  grid : TileIndex → TownTileType

namespace TownMap

/-- TownMap::tile_type: self.0.get(index.0).and_then(|m| m.get(index.1)),
i.e. some tile exactly when the index is inside the 23x13 grid. -/
def tile_type (m : TownMap) (i : TileIndex) : Option TownTileType :=
  if i.1 < TOWN_X ∧ i.2 < TOWN_Y then some (m.grid i) else none

/-- Writing through TownMap::tile_type_mut after the caller has unwrapped
the mutable reference: point update of the grid. -/
def set_tile (m : TownMap) (i : TileIndex) (tt : TownTileType) : TownMap :=
  ⟨fun j => if j = i then tt else m.grid j⟩

/-- The unchecked Index impl self.0[idx.0][idx.1] from paddlers-shared-lib
town.rs. In Rust this panics out of bounds; every caller in the embedded
code passes in-bounds indices (see mem_tiles_in_rectified_circle), so the
out-of-bounds value of the total model is never consulted. -/
def index (m : TownMap) (i : TileIndex) : TownTileType := m.grid i

/-- TownMap::basic_map: all EMPTY except the full row y = TOWN_LANE_Y,
which is LANE. -/
def basic_map : TownMap :=
  ⟨fun i => if i.2 = TOWN_LANE_Y then TownTileType.LANE else TownTileType.EMPTY⟩

end TownMap

/-- distance2 from paddlers-shared-lib town.rs: squared Euclidean distance
of two tile indices, computed through signed differences. -/
def distance2 (a b : TileIndex) : ℚ :=
  ((((a.1 : ℤ) - (b.1 : ℤ)) * ((a.1 : ℤ) - (b.1 : ℤ))
    + ((a.2 : ℤ) - (b.2 : ℤ)) * ((a.2 : ℤ) - (b.2 : ℤ)) : ℤ) : ℚ)

/-- Exact square of a rational number. A reduced fraction stays reduced
under squaring, so no gcd normalization is needed; unlike the generic
rational multiplication this definition evaluates inside the kernel.
ratSquare_eq below identifies it with q * q. -/
def ratSquare (q : ℚ) : ℚ :=
  ⟨q.num * q.num, q.den * q.den,
    Nat.mul_ne_zero q.den_nz q.den_nz, by
      rw [Int.natAbs_mul]
      exact Nat.Coprime.mul (q.reduced.mul_right q.reduced)
        (q.reduced.mul_right q.reduced)⟩

/-- The gcd-free square agrees with rational multiplication. -/
theorem ratSquare_eq (q : ℚ) : ratSquare q = q * q := by
  rw [ratSquare, Rat.mk'_eq_divInt]
  conv_rhs => rw [← Rat.num_divInt_den q]
  rw [Rat.divInt_mul_divInt']
  rw [Nat.cast_mul]

/-- The error codes of the frontend PadlErrorCode that the Town facade can
produce, together with the registry/ledger error kinds named by the spec
(CapacityExceeded, Underflow, Imbalance; their Rust definitions are not
under src/ and are mapped into PadlError by the facade). -/
inductive PadlErrorCode where
  | UnexpectedTileType : String → TownTileType → PadlErrorCode
  | MapOverflow : TileIndex → PadlErrorCode
  | NoStateForTile : TileIndex → PadlErrorCode
  | CapacityExceeded : PadlErrorCode
  | Underflow : PadlErrorCode
  | Imbalance : PadlErrorCode
deriving DecidableEq

/-- Modelled from the spec: TileState (generic over the entity handle, not
under src/) holds the owner back-reference, the fixed capacity and the
current occupancy. -/
structure TileState where
  entity : Entity
  capacity : Nat
  occupancy : Nat
deriving DecidableEq

namespace TileState

/-- TileState::new_building(id, capacity, occupancy), as called by
Town::place_building. -/
def new_building (e : Entity) (cap occ : Nat) : TileState := ⟨e, cap, occ⟩

/-- Modelled from the spec: try_add_entity increments occupancy if
occupancy < capacity, otherwise fails CapacityExceeded without mutating. -/
def try_add_entity (s : TileState) : Except PadlErrorCode TileState :=
  if s.occupancy < s.capacity then
    .ok { s with occupancy := s.occupancy + 1 }
  else .error .CapacityExceeded

/-- Modelled from the spec: try_remove_entity decrements occupancy if
occupancy > 0, otherwise fails Underflow without mutating. -/
def try_remove_entity (s : TileState) : Except PadlErrorCode TileState :=
  if 0 < s.occupancy then
    .ok { s with occupancy := s.occupancy - 1 }
  else .error .Underflow

end TileState

/-- Modelled from the spec: the task categories relevant to the activity
ledger. Forestry tasks affect forest_usage; Idle (the variant visible in
src/paddlers-game-master/src/setup/new_player.rs) does not. -/
inductive TaskType where
  | Idle : TaskType
  | ChopForest : TaskType
deriving DecidableEq

/-- Modelled from the spec: whether a task category draws on the forest
ledger category. -/
def TaskType.uses_forest : TaskType → Bool
  | .ChopForest => true
  | .Idle => false

/-- Modelled from the spec: TownState (not under src/) holds the sparse
registry of TileStates keyed by tile index, plus the forest ledger:
forest_size is the separately-set capacity, forest_usage the balanced
begin/end counter. -/
structure TownState where
  tiles : List (TileIndex × TileState)
  forest_size : Nat
  forest_usage : Nat

namespace TownState

/-- Modelled from the spec: a fresh town state with an empty registry and
zeroed ledger. -/
def new : TownState := ⟨[], 0, 0⟩

/-- Modelled from the spec: registry insert (map semantics: an existing
entry at the key is replaced). -/
def insert (st : TownState) (i : TileIndex) (s : TileState) : TownState :=
  { st with tiles := (i, s) :: st.tiles.filter (fun p => !(p.1 == i)) }

/-- Modelled from the spec: registry lookup. -/
def get (st : TownState) (i : TileIndex) : Option TileState :=
  (st.tiles.find? (fun p => p.1 == i)).map Prod.snd

/-- Modelled from the spec: registry removal, returning the removed state;
none when the registry has no entry (the frontend caller then panics by
projecting .entity out of it). -/
def remove (st : TownState) (i : TileIndex) : Option (TileState × TownState) :=
  match st.get i with
  | none => none
  | some s => some (s, { st with tiles := st.tiles.filter (fun p => !(p.1 == i)) })

/-- Modelled from the spec: register_task_begin increments the category's
counter unconditionally (capacity enforcement is the caller's concern);
the Result signature matches the frontend's map_err call. -/
def register_task_begin (st : TownState) (t : TaskType) : Except PadlErrorCode TownState :=
  .ok (if t.uses_forest then { st with forest_usage := st.forest_usage + 1 } else st)

/-- Modelled from the spec: register_task_end decrements the category's
counter, failing Imbalance when it is already zero (never clamped). -/
def register_task_end (st : TownState) (t : TaskType) : Except PadlErrorCode TownState :=
  if t.uses_forest then
    if st.forest_usage = 0 then .error .Imbalance
    else .ok { st with forest_usage := st.forest_usage - 1 }
  else .ok st

end TownState

/-- Town from frontend town.rs. The render-only resolution field is
omitted; the remaining fields are kept. -/
structure Town where
  map : TownMap
  state : TownState
  total_ambience : Int
  idle_prophets : List Entity
  faith : Nat

namespace Town

/-- Town::new: basic layout map (TownMap::new(TownLayout::Basic) builds the
single-lane basic_map), fresh state, ambience 0, no prophets, faith 100. -/
def new : Town :=
  { map := TownMap.basic_map
    state := TownState.new
    total_ambience := 0
    idle_prophets := []
    faith := 100 }

/-- Town::forest_size. -/
def forest_size (t : Town) : Nat := t.state.forest_size

/-- Town::update_forest_size: self.state.forest_size = new_score. -/
def update_forest_size (t : Town) (new_score : Nat) : Town :=
  { t with state := { t.state with forest_size := new_score } }

/-- Town::forest_usage. -/
def forest_usage (t : Town) : Nat := t.state.forest_usage

/-- Town::forest_size_free: self.state.forest_size - self.state.forest_usage()
on usize. The subtraction is checked: none models the underflow panic
(debug) / wrap (release) when usage exceeds size. -/
def forest_size_free (t : Town) : Option Nat :=
  if t.state.forest_usage ≤ t.state.forest_size then
    some (t.state.forest_size - t.state.forest_usage)
  else none

/-- Town::grow_forest: self.state.forest_size += add_score. -/
def grow_forest (t : Town) (add_score : Nat) : Town :=
  { t with state := { t.state with forest_size := t.state.forest_size + add_score } }

/-- Town::add_stateful_task: delegates to register_task_begin. -/
def add_stateful_task (t : Town) (task : TaskType) : Except PadlErrorCode Town :=
  (t.state.register_task_begin task).map (fun st => { t with state := st })

/-- Town::remove_stateful_task: delegates to register_task_end. -/
def remove_stateful_task (t : Town) (task : TaskType) : Except PadlErrorCode Town :=
  (t.state.register_task_end task).map (fun st => { t with state := st })

/-- Modelled from the spec: Town::is_buildable (not under src/) derives
buildability from the tile type; out-of-bounds indices are not buildable. -/
def is_buildable (t : Town) (i : TileIndex) : Bool :=
  match t.map.tile_type i with
  | some tt => tt.is_buildable
  | none => false

/-- Modelled from the spec: Town::are_tiles_in_range (not under src/) keeps
a candidate whose squared Euclidean distance to the center is at most the
squared radius. The square is taken with ratSquare, which is proved equal
to range * range (ratSquare_eq) and keeps the definition kernel-evaluable. -/
def are_tiles_in_range (a b : TileIndex) (range : ℚ) : Bool :=
  decide (distance2 a b ≤ ratSquare range)

/-- Town::tiles_in_rectified_circle: bounding box of half-side ceil(radius)
around the tile, lower edges saturating at 0, upper edges clamped to X, Y,
filtered by are_tiles_in_range. -/
def tiles_in_rectified_circle (tile : TileIndex) (radius : ℚ) : List TileIndex :=
  let r := radius.ceil.toNat
  let xmin := tile.1 - r
  let ymin := tile.2 - r
  let xmax := if tile.1 + r + 1 > X then X else tile.1 + r + 1
  let ymax := if tile.2 + r + 1 > Y then Y else tile.2 + r + 1
  (List.range' xmin (xmax - xmin)).flatMap (fun x =>
    (List.range' ymin (ymax - ymin)).filterMap (fun y =>
      if are_tiles_in_range tile (x, y) radius then some (x, y) else none))

/-- Town::lane_in_range: the rectified circle filtered to LANE tiles, read
through the unchecked Index impl. -/
def lane_in_range (t : Town) (pos : TileIndex) (range : ℚ) : List TileIndex :=
  (tiles_in_rectified_circle pos range).filter
    (fun xy => t.map.index xy == TownTileType.LANE)

/-- Town::place_building: debug_assert!(is_buildable) then unwrap of
tile_type_mut, then the two mutations. none models the panics. -/
def place_building (t : Town) (i : TileIndex) (bt : BuildingType) (id : Entity) : Option Town :=
  if t.is_buildable i then
    match t.map.tile_type i with
    | none => none
    | some _ =>
        some { t with
                map := t.map.set_tile i (TownTileType.BUILDING bt)
                state := t.state.insert i (TileState.new_building id bt.capacity 0) }
  else none

/-- Town::remove_building: unwrap of tile_type_mut (none when out of
bounds), write EMPTY, then state.remove(&i).entity (none when the registry
has no entry). -/
def remove_building (t : Town) (i : TileIndex) : Option (Entity × Town) :=
  match t.map.tile_type i with
  | none => none
  | some _ =>
      match t.state.remove i with
      | none => none
      | some (s, st) =>
          some (s.entity, { t with map := t.map.set_tile i TownTileType.EMPTY, state := st })

/-- Town::building_type. -/
def building_type (t : Town) (i : TileIndex) : Except PadlErrorCode BuildingType :=
  match t.map.tile_type i with
  | some (.BUILDING b) => .ok b
  | some tt => .error (.UnexpectedTileType "Some Building" tt)
  | none => .error (.MapOverflow i)

/-- Town::add_entity_to_building: registry lookup, then try_add_entity on
the entry (in-place mutation modelled as re-insert). -/
def add_entity_to_building (t : Town) (i : TileIndex) : Except PadlErrorCode Town :=
  match t.state.get i with
  | none => .error (.NoStateForTile i)
  | some s =>
      (s.try_add_entity).map (fun s2 => { t with state := t.state.insert i s2 })

/-- Town::remove_entity_from_building: registry lookup, then
try_remove_entity on the entry. -/
def remove_entity_from_building (t : Town) (i : TileIndex) : Except PadlErrorCode Town :=
  match t.state.get i with
  | none => .error (.NoStateForTile i)
  | some s =>
      (s.try_remove_entity).map (fun s2 => { t with state := t.state.insert i s2 })

end Town

/-- Iterated try_add_entity, modelling consecutive facade calls on the same
tile state; a failure aborts the remaining calls, matching the facade's
early return of the error. -/
def TileState.add_iter (s : TileState) : Nat → Except PadlErrorCode TileState
  | 0 => .ok s
  | n + 1 => (s.add_iter n).bind TileState.try_add_entity

/-- N consecutive Town::add_stateful_task calls. -/
def Town.begin_n (t : Town) (task : TaskType) : Nat → Except PadlErrorCode Town
  | 0 => .ok t
  | n + 1 => (t.begin_n task n).bind (fun t2 => t2.add_stateful_task task)

/-- N consecutive Town::remove_stateful_task calls. -/
def Town.end_n (t : Town) (task : TaskType) : Nat → Except PadlErrorCode Town
  | 0 => .ok t
  | n + 1 => (t.end_n task n).bind (fun t2 => t2.remove_stateful_task task)

/-- A town equal to t except for the forest_usage counter. -/
def Town.with_usage (t : Town) (u : Nat) : Town :=
  { t with state := { t.state with forest_usage := u } }

/-- A reachable town whose ledger has forest_usage 1 while forest_size is
still 0: exactly one forestry task has begun on a fresh town. -/
def townUsageOne : Town :=
  { Town.new with state := { TownState.new with forest_usage := 1 } }

/-- A town with one placed building at tile (0,0), capacity 2, owner 7. -/
def demoTown : Town := (Town.new.place_building (0, 0) ⟨2⟩ 7).getD Town.new

/-- A buildable tile has an in-bounds tile type that is buildable. -/
theorem is_buildable_tile_type {t : Town} {i : TileIndex}
    (h : t.is_buildable i = true) :
    ∃ tt, t.map.tile_type i = some tt ∧ tt.is_buildable = true := by
  unfold Town.is_buildable at h
  cases htt : t.map.tile_type i with
  | none => rw [htt] at h; cases h
  | some tt => rw [htt] at h; exact ⟨tt, rfl, h⟩

/-- A defined tile type means the index is inside the grid. -/
theorem tile_type_some_bounds {m : TownMap} {i : TileIndex} {tt : TownTileType}
    (h : m.tile_type i = some tt) : i.1 < TOWN_X ∧ i.2 < TOWN_Y := by
  by_cases hb : i.1 < TOWN_X ∧ i.2 < TOWN_Y
  · exact hb
  · rw [TownMap.tile_type, if_neg hb] at h
    cases h

/-- Reading back an in-bounds tile just written. -/
theorem tile_type_set_self {m : TownMap} {i : TileIndex}
    (hb : i.1 < TOWN_X ∧ i.2 < TOWN_Y) (tt : TownTileType) :
    (m.set_tile i tt).tile_type i = some tt := by
  rw [TownMap.tile_type, if_pos hb]
  simp [TownMap.set_tile]

/-- Registry lookup immediately after an insert at the same key. -/
theorem TownState.get_insert_self (st : TownState) (i : TileIndex) (s : TileState) :
    (st.insert i s).get i = some s := by
  simp [TownState.insert, TownState.get, List.find?]

/-- On a buildable tile, place_building performs its two mutations. -/
theorem place_building_some {t : Town} {i : TileIndex} {bt : BuildingType}
    {id : Entity} (h : t.is_buildable i = true) :
    t.place_building i bt id =
      some { t with
              map := t.map.set_tile i (TownTileType.BUILDING bt)
              state := t.state.insert i (TileState.new_building id bt.capacity 0) } := by
  obtain ⟨tt, htt, _⟩ := is_buildable_tile_type h
  simp [Town.place_building, h, htt]

/-- On an occupied tile with a registry entry, remove_building hands back
the owner and clears both stores. -/
theorem remove_building_some {t : Town} {i : TileIndex} {tt : TownTileType}
    {s : TileState} (htt : t.map.tile_type i = some tt)
    (hs : t.state.get i = some s) :
    t.remove_building i =
      some (s.entity,
        { t with
           map := t.map.set_tile i TownTileType.EMPTY
           state := { t.state with
                        tiles := t.state.tiles.filter (fun p => !(p.1 == i)) } }) := by
  simp [Town.remove_building, htt, TownState.remove, hs]

/-- C1 — counterexample. The claim requires place_building to fail with a
typed NotBuildable error on a non-buildable tile. On the lane tile (10,6)
of a fresh town (not buildable), the code instead hits the debug assertion
and, having no error channel in its signature, panics: modelled as none. -/
theorem C1_counterexample :
    Town.new.is_buildable (10, 6) = false ∧
    Town.new.place_building (10, 6) ⟨2⟩ 0 = none :=
  ⟨by decide, rfl⟩

/-- C1 — amended. place_building returns no NotBuildable result: when
is_buildable(i) is false (occupied, lane, or out of bounds) it panics via
debug_assert!/unwrap (modelled none); when i is buildable it sets the tile
type to Building(k) and inserts a fresh TileState with the given owner,
capacity k.capacity() and occupancy 0 into the registry. -/
theorem C1_place_building (t : Town) (i : TileIndex) (bt : BuildingType) (id : Entity) :
    (t.is_buildable i = false → t.place_building i bt id = none) ∧
    (t.is_buildable i = true →
      t.place_building i bt id =
        some { t with
                map := t.map.set_tile i (TownTileType.BUILDING bt)
                state := t.state.insert i (TileState.new_building id bt.capacity 0) }) := by
  constructor
  · intro h
    simp [Town.place_building, h]
  · exact fun h => place_building_some h

/-- C1 — witness: the amended theorem applied at the lane tile (10,6) and
at the buildable tile (0,0) of a fresh town. -/
theorem C1_witness :
    Town.new.place_building (10, 6) ⟨2⟩ 0 = none ∧
    (Town.new.place_building (0, 0) ⟨2⟩ 7).isSome = true := by
  constructor
  · exact (C1_place_building Town.new (10, 6) ⟨2⟩ 0).1 (by decide)
  · rw [(C1_place_building Town.new (0, 0) ⟨2⟩ 7).2 (by decide)]
    rfl

/-- C2 — counterexample. The claim requires remove_building to return a
NoStateForTile error when the registry has no entry or the index is out of
bounds. The code's signature returns the bare entity: on the in-bounds
empty tile (0,0) it panics projecting .entity from a missing state, and on
the out-of-bounds index (23,0) it panics unwrapping tile_type_mut; both
panics are modelled as none, and no typed error is ever produced. -/
theorem C2_counterexample :
    Town.new.remove_building (0, 0) = none ∧
    Town.new.remove_building (23, 0) = none :=
  ⟨rfl, rfl⟩

/-- C2 — amended. building_type, add_entity_to_building,
remove_entity_from_building, add_stateful_task and remove_stateful_task
return typed results, but place_building and remove_building do not:
remove_building returns the removed state's owner directly on success and
panics (modelled none) when the index is out of bounds or the registry has
no entry for it. -/
theorem C2_remove_building (t : Town) (i : TileIndex) :
    (t.map.tile_type i = none → t.remove_building i = none) ∧
    (t.state.get i = none → t.remove_building i = none) ∧
    (∀ tt s, t.map.tile_type i = some tt → t.state.get i = some s →
      t.remove_building i =
        some (s.entity,
          { t with
             map := t.map.set_tile i TownTileType.EMPTY
             state := { t.state with
                          tiles := t.state.tiles.filter (fun p => !(p.1 == i)) } })) := by
  refine ⟨?_, ?_, ?_⟩
  · intro h
    simp [Town.remove_building, h]
  · intro h
    cases htt : t.map.tile_type i with
    | none => simp [Town.remove_building, htt]
    | some tt => simp [Town.remove_building, htt, TownState.remove, h]
  · exact fun tt s htt hs => remove_building_some htt hs

/-- C2 — witness: the amended theorem applied at a fresh town's stateless
tile (5,5) and at demoTown's occupied tile (0,0). -/
theorem C2_witness :
    Town.new.remove_building (5, 5) = none ∧
    (demoTown.remove_building (0, 0)).map Prod.fst = some 7 := by
  constructor
  · exact (C2_remove_building Town.new (5, 5)).2.1 (by decide)
  · rw [(C2_remove_building demoTown (0, 0)).2.2 (TownTileType.BUILDING ⟨2⟩)
      (TileState.new_building 7 2 0) (by decide) (by decide)]
    rfl

/-- C5 — confirmed: placing a building on a buildable tile and removing it
again restores the tile type to EMPTY, and remove_building hands back the
same owner that place_building received. -/
theorem C5_place_then_remove (t : Town) (i : TileIndex) (bt : BuildingType)
    (id : Entity) (h : t.is_buildable i = true) :
    ∃ tp t2, t.place_building i bt id = some tp ∧
      tp.remove_building i = some (id, t2) ∧
      t2.map.tile_type i = some TownTileType.EMPTY := by
  obtain ⟨tt, htt, _⟩ := is_buildable_tile_type h
  have hb := tile_type_some_bounds htt
  exact ⟨_, _, place_building_some h,
    remove_building_some (tile_type_set_self hb (TownTileType.BUILDING bt))
      (TownState.get_insert_self t.state i (TileState.new_building id bt.capacity 0)),
    tile_type_set_self hb TownTileType.EMPTY⟩

/-- C5 — witness: place then remove at the buildable tile (0,0) of a fresh
town, with owner 7. -/
theorem C5_witness :
    ∃ tp t2, Town.new.place_building (0, 0) ⟨2⟩ 7 = some tp ∧
      tp.remove_building (0, 0) = some (7, t2) ∧
      t2.map.tile_type (0, 0) = some TownTileType.EMPTY :=
  C5_place_then_remove Town.new (0, 0) ⟨2⟩ 7 (by decide)

/-- C8 — counterexample. The claim requires the negative difference to be
surfaced when usage exceeds capacity. After one forestry task begins on a
fresh town (usage 1, size 0), forest_size_free underflows the usize
subtraction — a debug-build panic, modelled none — instead of returning a
negative value; the facade's return type has no negative values at all. -/
theorem C8_counterexample :
    Town.new.add_stateful_task TaskType.ChopForest = .ok townUsageOne ∧
    townUsageOne.forest_size = 0 ∧ townUsageOne.forest_usage = 1 ∧
    townUsageOne.forest_size_free = none :=
  ⟨rfl, rfl, rfl, rfl⟩

/-- C8 — amended. forest_size_free() equals forest_size() minus
forest_usage() whenever usage ≤ size; when usage exceeds size the usize
subtraction underflows (panic in debug builds, wrap in release), modelled
none — the difference is neither saturated at zero nor surfaced as a
negative number. -/
theorem C8_forest_size_free (t : Town) :
    (t.forest_usage ≤ t.forest_size →
      t.forest_size_free = some (t.forest_size - t.forest_usage)) ∧
    (t.forest_size < t.forest_usage → t.forest_size_free = none) := by
  constructor <;> intro h <;>
    simp only [Town.forest_usage, Town.forest_size] at h <;>
    simp only [Town.forest_size_free] <;> split
  · rfl
  · omega
  · omega
  · rfl

/-- C8 — witness: the amended theorem applied at a fresh town (usage 0,
size 0) and at townUsageOne (usage 1, size 0). -/
theorem C8_witness :
    Town.new.forest_size_free = some 0 ∧ townUsageOne.forest_size_free = none :=
  ⟨(C8_forest_size_free Town.new).1 (by decide),
   (C8_forest_size_free townUsageOne).2 (by decide)⟩

/-- C9 — confirmed: building_type returns Ok(b) exactly when the tile's
type is Building(b), an UnexpectedTileType error when the tile is in
bounds but Empty or Lane, and a MapOverflow error exactly when the index
is out of grid bounds; being a total function into a typed result it never
panics. -/
theorem C9_building_type (t : Town) (i : TileIndex) :
    (∀ b, t.building_type i = .ok b ↔
      t.map.tile_type i = some (TownTileType.BUILDING b)) ∧
    (∀ tt, t.map.tile_type i = some tt → (∀ b, tt ≠ TownTileType.BUILDING b) →
      t.building_type i = .error (.UnexpectedTileType "Some Building" tt)) ∧
    (t.building_type i = .error (.MapOverflow i) ↔ ¬(i.1 < TOWN_X ∧ i.2 < TOWN_Y)) := by
  refine ⟨?_, ?_, ?_⟩
  · intro b
    cases htt : t.map.tile_type i with
    | none => simp [Town.building_type, htt]
    | some tt => cases tt <;> simp [Town.building_type, htt]
  · intro tt htt hne
    cases tt with
    | EMPTY => simp [Town.building_type, htt]
    | LANE => simp [Town.building_type, htt]
    | BUILDING b => exact absurd rfl (hne b)
  · constructor
    · intro h hb
      rw [Town.building_type] at h
      rw [TownMap.tile_type, if_pos hb] at h
      cases htt : t.map.grid i <;> rw [htt] at h <;> cases h
    · intro hb
      rw [Town.building_type, TownMap.tile_type, if_neg hb]

/-- C9 — witness: the characterization applied at demoTown's building tile
(0,0), a fresh town's lane tile (0,6), and the out-of-bounds index (23,0). -/
theorem C9_witness :
    demoTown.building_type (0, 0) = .ok ⟨2⟩ ∧
    Town.new.building_type (0, 6) =
      .error (.UnexpectedTileType "Some Building" TownTileType.LANE) ∧
    Town.new.building_type (23, 0) = .error (.MapOverflow (23, 0)) :=
  ⟨(C9_building_type demoTown (0, 0)).1 ⟨2⟩ |>.mpr (by decide),
   (C9_building_type Town.new (0, 6)).2.1 TownTileType.LANE (by decide)
     (fun b h => by cases h),
   (C9_building_type Town.new (23, 0)).2.2.mpr (by decide)⟩

/-- C10 — confirmed: update_forest_size(n) sets the forest_size capacity
to n and grow_forest(d) increases it by exactly d, while forest_usage, the
tile map, and the registry of building occupancy states are unchanged by
both calls. -/
theorem C10_forest_frame (t : Town) (n d : Nat) :
    (t.update_forest_size n).forest_size = n ∧
    (t.update_forest_size n).forest_usage = t.forest_usage ∧
    (t.update_forest_size n).map = t.map ∧
    (t.update_forest_size n).state.tiles = t.state.tiles ∧
    (t.grow_forest d).forest_size = t.forest_size + d ∧
    (t.grow_forest d).forest_usage = t.forest_usage ∧
    (t.grow_forest d).map = t.map ∧
    (t.grow_forest d).state.tiles = t.state.tiles :=
  ⟨rfl, rfl, rfl, rfl, rfl, rfl, rfl, rfl⟩

/-- Below capacity, k iterated adds on a fresh state raise occupancy to k. -/
theorem add_iter_ok (id cap : Nat) : ∀ k, k ≤ cap →
    (TileState.new_building id cap 0).add_iter k = .ok ⟨id, cap, k⟩ := by
  intro k
  induction k with
  | zero => intro _; rfl
  | succ k ih =>
      intro h
      rw [TileState.add_iter, ih (Nat.le_of_succ_le h)]
      show (⟨id, cap, k⟩ : TileState).try_add_entity = _
      simp [TileState.try_add_entity, Nat.lt_of_succ_le h]

/-- C3 — confirmed: a freshly placed building starts at occupancy 0 with
capacity k.capacity(); exactly C consecutive try_add_entity calls succeed,
ending at occupancy C; the (C+1)-th fails CapacityExceeded (aborting with
no successor state, i.e. mutating nothing); try_remove_entity at occupancy
0 fails Underflow the same way; and both successful operations keep
occupancy within [0, capacity]. -/
theorem C3_occupancy (cap : Nat) (id : Entity) :
    ((TileState.new_building id cap 0).add_iter cap = .ok ⟨id, cap, cap⟩) ∧
    ((TileState.new_building id cap 0).add_iter (cap + 1) =
      .error .CapacityExceeded) ∧
    ((TileState.new_building id cap 0).try_remove_entity = .error .Underflow) ∧
    (∀ (t : Town) (i : TileIndex) (bt : BuildingType) (e : Entity) (tp : Town),
      t.place_building i bt e = some tp →
      tp.state.get i = some (TileState.new_building e bt.capacity 0)) ∧
    (∀ s s2 : TileState, s.try_add_entity = .ok s2 →
      s2.occupancy ≤ s2.capacity) ∧
    (∀ s s2 : TileState, s.occupancy ≤ s.capacity → s.try_remove_entity = .ok s2 →
      s2.occupancy ≤ s2.capacity) := by
  refine ⟨add_iter_ok id cap cap Nat.le.refl, ?_, ?_, ?_, ?_, ?_⟩
  · rw [TileState.add_iter, add_iter_ok id cap cap Nat.le.refl]
    show (⟨id, cap, cap⟩ : TileState).try_add_entity = _
    simp [TileState.try_add_entity]
  · simp [TileState.new_building, TileState.try_remove_entity]
  · intro t i bt e tp hp
    rw [Town.place_building] at hp
    split at hp
    · split at hp
      · cases hp
      · injection hp with h
        subst h
        exact TownState.get_insert_self t.state i (TileState.new_building e bt.capacity 0)
    · cases hp
  · intro s s2 h
    rw [TileState.try_add_entity] at h
    split at h
    · injection h with h2
      subst h2
      simp only [TileState.occupancy, TileState.capacity] at *
      omega
    · cases h
  · intro s s2 h0 h
    rw [TileState.try_remove_entity] at h
    split at h
    · injection h with h2
      subst h2
      simp only [TileState.occupancy, TileState.capacity] at *
      omega
    · cases h

/-- C3 — witness: capacity 2 accepts 2 adds and rejects the 3rd; demoTown's
placement produced the fresh state; a successful add stays in bounds. -/
theorem C3_witness :
    (TileState.new_building 0 2 0).add_iter 2 = .ok ⟨0, 2, 2⟩ ∧
    (TileState.new_building 0 2 0).add_iter 3 = .error .CapacityExceeded ∧
    (TileState.new_building 0 2 0).try_remove_entity = .error .Underflow ∧
    demoTown.state.get (0, 0) = some (TileState.new_building 7 2 0) ∧
    (⟨7, 2, 1⟩ : TileState).occupancy ≤ (⟨7, 2, 1⟩ : TileState).capacity :=
  ⟨(C3_occupancy 2 0).1, (C3_occupancy 2 0).2.1, (C3_occupancy 2 0).2.2.1,
   (C3_occupancy 2 0).2.2.2.1 Town.new (0, 0) ⟨2⟩ 7 demoTown rfl,
   (C3_occupancy 2 0).2.2.2.2.1 ⟨7, 2, 0⟩ ⟨7, 2, 1⟩ rfl⟩

/-- A forestry task begin increments the usage counter. -/
theorem add_stateful_forest (t : Town) :
    t.add_stateful_task TaskType.ChopForest =
      .ok (t.with_usage (t.forest_usage + 1)) := rfl

/-- With a positive counter, a forestry task end decrements it. -/
theorem remove_stateful_forest_pos (t : Town) (h : t.forest_usage ≠ 0) :
    t.remove_stateful_task TaskType.ChopForest =
      .ok (t.with_usage (t.forest_usage - 1)) := by
  simp only [Town.forest_usage] at h
  simp [Town.remove_stateful_task, TownState.register_task_end,
    TaskType.uses_forest, h, Town.with_usage, Except.map, Town.forest_usage]

/-- With a zero counter, a forestry task end fails Imbalance. -/
theorem remove_stateful_forest_zero (t : Town) (h : t.forest_usage = 0) :
    t.remove_stateful_task TaskType.ChopForest = .error .Imbalance := by
  simp only [Town.forest_usage] at h
  simp [Town.remove_stateful_task, TownState.register_task_end,
    TaskType.uses_forest, h, Except.map]

/-- Reading the counter of with_usage. -/
theorem forest_usage_with_usage (t : Town) (u : Nat) :
    (t.with_usage u).forest_usage = u := rfl

/-- with_usage overrides a previous with_usage. -/
theorem with_usage_with_usage (t : Town) (u v : Nat) :
    (t.with_usage u).with_usage v = t.with_usage v := rfl

/-- Rewriting the counter to its current value is the identity. -/
theorem with_usage_self (t : Town) : t.with_usage t.forest_usage = t := rfl

/-- N forestry begins raise the usage counter by N. -/
theorem begin_n_forest (t : Town) : ∀ N,
    t.begin_n TaskType.ChopForest N = .ok (t.with_usage (t.forest_usage + N)) := by
  intro N
  induction N with
  | zero => simp [Town.begin_n, with_usage_self]
  | succ N ih =>
      rw [Town.begin_n, ih]
      show (t.with_usage (t.forest_usage + N)).add_stateful_task _ = _
      rw [add_stateful_forest, forest_usage_with_usage, with_usage_with_usage]
      rfl

/-- N forestry ends lower a sufficient usage counter by N. -/
theorem end_n_forest (t : Town) : ∀ N, N ≤ t.forest_usage →
    t.end_n TaskType.ChopForest N = .ok (t.with_usage (t.forest_usage - N)) := by
  intro N
  induction N with
  | zero => intro _; simp [Town.end_n, with_usage_self]
  | succ N ih =>
      intro h
      rw [Town.end_n, ih (Nat.le_of_succ_le h)]
      show (t.with_usage (t.forest_usage - N)).remove_stateful_task _ = _
      rw [remove_stateful_forest_pos _ (by rw [forest_usage_with_usage]; omega),
        forest_usage_with_usage, with_usage_with_usage, Nat.sub_sub]

/-- Idle tasks do not touch the ledger: N begins are the identity. -/
theorem begin_n_idle (t : Town) : ∀ N, t.begin_n TaskType.Idle N = .ok t := by
  intro N
  induction N with
  | zero => rfl
  | succ N ih => rw [Town.begin_n, ih]; rfl

/-- Idle tasks do not touch the ledger: N ends are the identity. -/
theorem end_n_idle (t : Town) : ∀ N, t.end_n TaskType.Idle N = .ok t := by
  intro N
  induction N with
  | zero => rfl
  | succ N ih => rw [Town.end_n, ih]; rfl

/-- C4 — counterexample. The claim asserts for every starting ledger state
that the (N+1)-th register_end fails with Imbalance. Starting from the
reachable state townUsageOne (forest_usage 1) with N = 0, the sequence of
N begins and N ends is empty, and the (N+1)-th end then succeeds, handing
back the fresh town — it does not fail Imbalance. -/
theorem C4_counterexample :
    Town.new.add_stateful_task TaskType.ChopForest = .ok townUsageOne ∧
    townUsageOne.begin_n TaskType.ChopForest 0 = .ok townUsageOne ∧
    townUsageOne.end_n TaskType.ChopForest 0 = .ok townUsageOne ∧
    townUsageOne.remove_stateful_task TaskType.ChopForest = .ok Town.new :=
  ⟨rfl, rfl, rfl, rfl⟩

/-- C4 — amended. For every category, starting state and N: a sequence of
N register_begin calls followed by N register_end calls succeeds and
restores the whole town state (in particular usage(cat)); every end inside
the sequence succeeds, nothing is clamped. The (N+1)-th register_end fails
with Imbalance when the starting counter was zero (so the counter is zero
again at that point) — but not for every starting ledger state, as the
counterexample shows. -/
theorem C4_ledger_balance (t : Town) (task : TaskType) (N : Nat) :
    (t.begin_n task N).bind (fun t2 => t2.end_n task N) = .ok t ∧
    (task.uses_forest = true → t.forest_usage = 0 →
      ((t.begin_n task N).bind (fun t2 => t2.end_n task N)).bind
        (fun t3 => t3.remove_stateful_task task) = .error PadlErrorCode.Imbalance) := by
  cases task with
  | Idle =>
      refine ⟨?_, ?_⟩
      · rw [begin_n_idle]
        show t.end_n TaskType.Idle N = .ok t
        exact end_n_idle t N
      · intro h
        cases h
  | ChopForest =>
      have hseq : (t.begin_n TaskType.ChopForest N).bind
          (fun t2 => t2.end_n TaskType.ChopForest N) = .ok t := by
        rw [begin_n_forest]
        show (t.with_usage (t.forest_usage + N)).end_n TaskType.ChopForest N = _
        rw [end_n_forest _ N (by rw [forest_usage_with_usage]; omega),
          forest_usage_with_usage, with_usage_with_usage]
        rw [Nat.add_sub_cancel, with_usage_self]
      refine ⟨hseq, ?_⟩
      intro _ h0
      rw [hseq]
      show t.remove_stateful_task TaskType.ChopForest = _
      exact remove_stateful_forest_zero t h0

/-- C4 — witness: the amended theorem at a fresh town (usage 0) with the
forestry category and N = 3. -/
theorem C4_witness :
    (Town.new.begin_n TaskType.ChopForest 3).bind
      (fun t2 => t2.end_n TaskType.ChopForest 3) = .ok Town.new ∧
    ((Town.new.begin_n TaskType.ChopForest 3).bind
      (fun t2 => t2.end_n TaskType.ChopForest 3)).bind
      (fun t3 => t3.remove_stateful_task TaskType.ChopForest) =
        .error PadlErrorCode.Imbalance :=
  ⟨(C4_ledger_balance Town.new TaskType.ChopForest 3).1,
   (C4_ledger_balance Town.new TaskType.ChopForest 3).2 rfl rfl⟩

/-- The distance filter in propositional form. -/
theorem are_tiles_in_range_iff (a b : TileIndex) (range : ℚ) :
    Town.are_tiles_in_range a b range = true ↔ distance2 a b ≤ range * range := by
  simp [Town.are_tiles_in_range, ratSquare_eq]

/-- Membership in the rectified circle: exactly the in-grid tiles of the
clamped bounding box of half-side ceil(radius) around the center whose
squared Euclidean distance to the center is at most the squared radius. -/
theorem mem_tiles_in_rectified_circle (c : TileIndex) (radius : ℚ) (p : TileIndex) :
    p ∈ Town.tiles_in_rectified_circle c radius ↔
      (c.1 - radius.ceil.toNat ≤ p.1 ∧ p.1 ≤ c.1 + radius.ceil.toNat ∧ p.1 < X ∧
       c.2 - radius.ceil.toNat ≤ p.2 ∧ p.2 ≤ c.2 + radius.ceil.toNat ∧ p.2 < Y ∧
       distance2 c p ≤ radius * radius) := by
  obtain ⟨px, py⟩ := p
  simp only [Town.tiles_in_rectified_circle, List.mem_flatMap, List.mem_filterMap,
    List.mem_range'_1, Option.ite_none_right_eq_some, Option.some.injEq,
    Prod.mk.injEq, Town.are_tiles_in_range, decide_eq_true_eq, ratSquare_eq]
  constructor
  · rintro ⟨x, hx, y, hy, hd, hxe, hye⟩
    subst hxe
    subst hye
    obtain ⟨hx1, hx2⟩ := hx
    obtain ⟨hy1, hy2⟩ := hy
    split at hx2 <;> split at hy2 <;>
      exact ⟨hx1, by omega, by omega, hy1, by omega, by omega, hd⟩
  · rintro ⟨h1, h2, h3, h4, h5, h6, h7⟩
    refine ⟨px, ⟨h1, ?_⟩, py, ⟨h4, ?_⟩, h7, rfl, rfl⟩
    · split <;> omega
    · split <;> omega

/-- C6 — confirmed: for every center and radius the rectified circle is
exactly the set of in-bounds tiles of the clamped bounding box (half-side
ceil(radius), i.e. side 2*ceil(radius)+1 before clamping; the lower edges
saturate at 0 and the upper edges clamp to the grid, so edge centers never
wrap or panic) whose squared Euclidean distance to the center is at most
radius squared; concretely, around (5,5) with radius 1 it is exactly the
five-tile plus shape, diagonals excluded. -/
theorem C6_tiles_in_rectified_circle :
    (∀ (c : TileIndex) (radius : ℚ) (p : TileIndex),
      p ∈ Town.tiles_in_rectified_circle c radius ↔
        (c.1 - radius.ceil.toNat ≤ p.1 ∧ p.1 ≤ c.1 + radius.ceil.toNat ∧ p.1 < X ∧
         c.2 - radius.ceil.toNat ≤ p.2 ∧ p.2 ≤ c.2 + radius.ceil.toNat ∧ p.2 < Y ∧
         distance2 c p ≤ radius * radius)) ∧
    Town.tiles_in_rectified_circle (5, 5) 1 =
      [(4, 5), (5, 4), (5, 5), (5, 6), (6, 5)] :=
  ⟨mem_tiles_in_rectified_circle, by decide⟩

/-- C7 — confirmed: lane_in_range returns exactly the tiles of the
rectified circle whose tile type is Lane; on the basic 23x13 layout with
the lane at row 6, lane_in_range((10,0), 2) is empty. -/
theorem C7_lane_in_range :
    (∀ (t : Town) (pos : TileIndex) (range : ℚ) (p : TileIndex),
      p ∈ t.lane_in_range pos range ↔
        p ∈ Town.tiles_in_rectified_circle pos range ∧
          t.map.tile_type p = some TownTileType.LANE) ∧
    Town.new.lane_in_range (10, 0) 2 = [] := by
  refine ⟨?_, by decide⟩
  intro t pos range p
  rw [Town.lane_in_range, List.mem_filter]
  constructor
  · rintro ⟨hmem, hlane⟩
    refine ⟨hmem, ?_⟩
    have hb := (mem_tiles_in_rectified_circle pos range p).mp hmem
    simp only [TownMap.index, beq_iff_eq] at hlane
    rw [TownMap.tile_type, if_pos ⟨hb.2.2.1, hb.2.2.2.2.2.1⟩, hlane]
  · rintro ⟨hmem, htt⟩
    refine ⟨hmem, ?_⟩
    simp only [TownMap.index, beq_iff_eq]
    rw [TownMap.tile_type] at htt
    split at htt
    · injection htt
    · cases htt

end Paddlers
